import Mathlib

/-!
Shallow embedding of the KORUZA controller broker daemon
(koruza-controller, C sources).  The embedded functions follow the
broker implementation in the server translation unit: the command
scheduler (server_send_command / server_serial_command_done), the
per-connection line framer (server_connection_read_cb), the serial
response framer (server_serial_read_cb), the reset and timeout paths
(server_serial_reset / server_serial_read_response_timeout_cb /
server_serial_start_response_timer), connection teardown
(connection_context_free), and the startup configuration validation
(start_server, main).

Modelling conventions:
* connections are identified by natural numbers; freeing a connection's
  bufferevent is recorded in `closedConns`;
* bytes written to the serial port are recorded in `writesSerial` and
  bytes written to a client connection in `writesConn`, as traces;
* the singly linked command queue with head and tail pointers is a
  `List` (the code maintains tail = NULL iff head = NULL, so list
  append models the tail insertion exactly);
* `malloc` success for the queued-command record is an explicit
  `allocOk` argument (the code does not check the inner `strdup`, whose
  failure is not modelled);
* the system-call outcomes of the reset path (open / fcntl / tcsetattr)
  are an explicit `ResetEnv` oracle;
* the response buffer holds the logical contents (the first rsp_length
  bytes of the C buffer);
* the C expression `strncmp(response + rsp_length - 9, "\r\n#STOP\r\n", 9)`
  reads before the start of the buffer whenever rsp_length < 9; the
  embedding makes that case explicit through the `underflow` flag of
  `SerialReadResult` instead of performing the out-of-bounds read.
-/

namespace Koruza

/-- The nine-byte end-of-message sentinel the serial framer keys on. -/
def stopSeq : List Char := ("\r\n#STOP\r\n").toList

/-- The 15-byte error envelope the broker synthesizes on timeout/reset. -/
def errorEnvelope : List Char := ("#ERROR\r\n#STOP\r\n").toList

/-- One entry of the pending command queue (struct command_queue_t). -/
structure QueuedCmd where
  conn : Nat
  cmd : List Char
  deriving Repr, DecidableEq

/-- The broker state (struct server_context_t), instrumented with the
traces of serial writes, connection writes and freed connections. -/
structure ServerState where
  /-- active_connection (None models NULL) -/
  active : Option Nat
  /-- cmd_queue_start .. cmd_queue_tail -/
  queue : List QueuedCmd
  /-- the response timeout event is pending (evtimer_add-ed) -/
  timerArmed : Bool
  /-- serial_bev != NULL -/
  serialOpen : Bool
  /-- response buffer contents (first rsp_length bytes) -/
  response : List Char
  /-- hook_device_reset != NULL -/
  hookConfigured : Bool
  /-- number of times the reset hook was spawned and waited for -/
  hookRuns : Nat
  /-- trace of commands written to the serial device -/
  writesSerial : List (List Char)
  /-- trace of byte strings written to client connections -/
  writesConn : List (Nat × List Char)
  /-- connections whose bufferevent has been freed -/
  closedConns : List Nat
  deriving Repr, DecidableEq

/-- Outcomes of the system calls performed while reopening the serial
device during server_serial_reset. -/
structure ResetEnv where
  openOk : Bool
  fcntlOk : Bool
  tcsetOk : Bool
  deriving Repr, DecidableEq

/-- connection_context_free: if the freed connection is the currently
active connection, clear active_connection; then free the connection's
bufferevent.  The pending queue is not touched. -/
def connection_context_free (s : ServerState) (c : Nat) : ServerState :=
  let s1 := if s.active = some c then { s with active := none } else s
  { s1 with closedConns := c :: s1.closedConns }

/-- server_serial_start_response_timer: (create and) arm the one-second
response timeout timer. -/
def server_serial_start_response_timer (s : ServerState) : ServerState :=
  { s with timerArmed := true }

/-- The body of server_serial_reset up to and including reopening and
reconfiguring the device (steps before the final command_done call):
optionally fail the active command with the error envelope, free the
serial bufferevent, run the reset hook, then reopen/reconfigure; on any
reopen failure the response timer is re-armed and false is returned. -/
def server_serial_reset_core (s : ServerState) (failActive : Bool) (env : ResetEnv) :
    ServerState × Bool :=
  let s1 :=
    match s.active with
    | some c =>
        if failActive then
          { s with writesConn := s.writesConn ++ [(c, errorEnvelope)] }
        else s
    | none => s
  let s2 := { s1 with serialOpen := false }
  let s3 := if s2.hookConfigured then { s2 with hookRuns := s2.hookRuns + 1 } else s2
  if ¬ env.openOk then (server_serial_start_response_timer s3, false)
  else if ¬ env.fcntlOk then (server_serial_start_response_timer s3, false)
  else if ¬ env.tcsetOk then (server_serial_start_response_timer s3, false)
  else ({ s3 with serialOpen := true }, true)

/-- server_serial_send_command: arm the response timer; if the serial
bufferevent is gone and a (fail_active = false) reset fails, write the
error envelope to the active connection; otherwise write the command
bytes to the serial device. -/
def server_serial_send_command (s : ServerState) (cmd : List Char) (env : ResetEnv) :
    ServerState :=
  let s1 := server_serial_start_response_timer s
  if s1.serialOpen then
    { s1 with writesSerial := s1.writesSerial ++ [cmd] }
  else
    let r := server_serial_reset_core s1 false env
    if r.2 then
      { r.1 with writesSerial := r.1.writesSerial ++ [cmd] }
    else
      match r.1.active with
      | some c => { r.1 with writesConn := r.1.writesConn ++ [(c, errorEnvelope)] }
      | none => r.1

/-- server_serial_command_done: clear the response accumulator, cancel
the response timeout timer, and either dispatch the head of the queue
(making its connection active) or clear the active slot. -/
def server_serial_command_done (s : ServerState) (env : ResetEnv) : ServerState :=
  let s1 := { s with response := [], timerArmed := false }
  match s1.queue with
  | [] => { s1 with active := none }
  | q :: rest =>
      server_serial_send_command { s1 with active := some q.conn, queue := rest } q.cmd env

/-- server_serial_reset: the reset core followed, when fail_active and
the reopen succeeded, by server_serial_command_done.  (For fail_active
= false the code never reaches the command_done call, so this agrees
with server_serial_reset_core; see reset_noFail_eq_core.) -/
def server_serial_reset (s : ServerState) (failActive : Bool) (env : ResetEnv) :
    ServerState × Bool :=
  let r := server_serial_reset_core s failActive env
  if r.2 then
    (if failActive then server_serial_command_done r.1 env else r.1, true)
  else (r.1, false)

/-- server_serial_read_response_timeout_cb: on expiry of the one-second
response timer, reset the port failing the active command. -/
def server_serial_read_response_timeout_cb (s : ServerState) (env : ResetEnv) :
    ServerState :=
  (server_serial_reset s true env).1

/-- server_send_command: if a command is active, allocate a queue record
and append it at the tail (closing the submitting connection and
returning false when the allocation fails); otherwise make the
submitting connection active and send the command to the device. -/
def server_send_command (s : ServerState) (conn : Nat) (cmd : List Char)
    (allocOk : Bool) (env : ResetEnv) : ServerState × Bool :=
  match s.active with
  | some _ =>
      if ¬ allocOk then (connection_context_free s conn, false)
      else ({ s with queue := s.queue ++ [⟨conn, cmd⟩] }, true)
  | none =>
      (server_serial_send_command { s with active := some conn } cmd env, true)

/-- Outcome of one invocation of the per-connection read callback. -/
inductive ReadOutcome where
  /-- cmd_length reached 64: protocol error, the connection is closed -/
  | closed
  /-- the accumulated bytes end in a newline: the whole buffer
  (newline included) is submitted and the accumulator reset -/
  | submitted (cmd : List Char)
  /-- no newline yet: keep accumulating -/
  | waiting (buf : List Char)
  deriving Repr, DecidableEq

/-- server_connection_read_cb: read up to 64 - cmd_length bytes into the
command accumulator; close the connection if the fill level reaches 64,
submit the buffer if its last byte is a newline, otherwise wait.
Returns the outcome and the input bytes left in the bufferevent. -/
def server_connection_read_cb (buf input : List Char) : ReadOutcome × List Char :=
  let n := min input.length (64 - buf.length)
  if n = 0 then (ReadOutcome.waiting buf, input)
  else
    let buf2 := buf ++ input.take n
    let rest := input.drop n
    if 64 ≤ buf2.length then (ReadOutcome.closed, rest)
    else if buf2.getLast? = some '\n' then (ReadOutcome.submitted buf2, rest)
    else (ReadOutcome.waiting buf2, rest)

/-- The last n elements of a list. -/
def lastN (n : Nat) (l : List Char) : List Char := l.drop (l.length - n)

/-- Result of one invocation of the serial read callback. -/
structure SerialReadResult where
  state : ServerState
  /-- the end-of-message strncmp ran with rsp_length < 9, i.e. the C
  code read memory before the start of the response buffer -/
  underflow : Bool
  /-- the end-of-message sentinel matched and command_done ran -/
  completed : Bool
  deriving Repr, DecidableEq

/-- server_serial_read_cb: with no active connection the bytes are
drained and discarded; otherwise the drained bytes are appended to the
response accumulator and piped to the active connection, then the
end-of-message check compares the 9 bytes ending at rsp_length against
the sentinel (an out-of-bounds read when rsp_length < 9, reported here
as `underflow`), invoking command_done on a match. -/
def server_serial_read_cb (s : ServerState) (data : List Char) (env : ResetEnv) :
    SerialReadResult :=
  match s.active with
  | none => ⟨s, false, false⟩
  | some c =>
      let s1 :=
        if data = [] then s
        else { s with response := s.response ++ data,
                      writesConn := s.writesConn ++ [(c, data)] }
      if s1.response.length < 9 then ⟨s1, true, false⟩
      else if lastN 9 s1.response = stopSeq then
        ⟨server_serial_command_done s1 env, false, true⟩
      else ⟨s1, false, false⟩

/-- Scheduler-level events: a successful submission from a connection,
or a completion (end-of-message detected for the active command). -/
inductive SchedEvent where
  | submit (conn : Nat) (cmd : List Char)
  | complete
  deriving Repr, DecidableEq

/-- Run a sequence of scheduler events against the broker state. -/
def runSched (env : ResetEnv) : ServerState → List SchedEvent → ServerState
  | s, [] => s
  | s, SchedEvent.submit c cmd :: evs =>
      runSched env (server_send_command s c cmd true env).1 evs
  | s, SchedEvent.complete :: evs =>
      runSched env (server_serial_command_done s env) evs

/-- The commands of the submit events, in submission order. -/
def submittedCmds : List SchedEvent → List (List Char)
  | [] => []
  | SchedEvent.submit _ cmd :: evs => cmd :: submittedCmds evs
  | SchedEvent.complete :: evs => submittedCmds evs

/-- The commands held in the pending queue, in queue order. -/
def queueCmds (s : ServerState) : List (List Char) := s.queue.map QueuedCmd.cmd

/-- The broker state right after start_server's initialization, with
the serial device open and the event loop about to start. -/
def initState : ServerState :=
  { active := none
    queue := []
    timerArmed := false
    serialOpen := true
    response := []
    hookConfigured := false
    hookRuns := 0
    writesSerial := []
    writesConn := []
    closedConns := [] }

/-- The timer/active-slot equivalence stated by the specification. -/
def timerInv (s : ServerState) : Prop := s.timerArmed = true ↔ s.active.isSome

instance (s : ServerState) : Decidable (timerInv s) := by
  unfold timerInv; infer_instance

/-- A typed UCL configuration value, as the broker's subtree uses them
(strings and integers; `boolean` stands for any other UCL type and
exhibits type mismatches).  The nested `hooks` subtree is not modelled:
no claim depends on it. -/
inductive UclValue where
  | str (s : String)
  | int (n : Int)
  | boolean (b : Bool)
  deriving Repr, DecidableEq

/-- A flat UCL section: ordered key/value pairs. -/
abbrev UclConfig := List (String × UclValue)

/-- ucl_object_find_key on a flat section (first match). -/
def ucl_find (cfg : UclConfig) (key : String) : Option UclValue :=
  (cfg.find? (fun kv => kv.1 = key)).map Prod.snd

/-- The root configuration document as main sees it: the optional
"server" subtree (other subtrees are irrelevant to the broker). -/
structure RootConfig where
  server : Option UclConfig
  deriving Repr, DecidableEq

/-- Outcomes of the system calls start_server performs while opening
and configuring the serial device and binding the listener. -/
structure StartEnv where
  openOk : Bool
  fcntlOk : Bool
  tcgetOk : Bool
  tcsetOk : Bool
  listenerOk : Bool
  deriving Repr, DecidableEq

/-- The baud rates accepted by start_server's switch statement. -/
def validBaudrates : List Int :=
  [50, 75, 110, 134, 150, 200, 300, 600, 1200, 1800, 2400, 4800,
   9600, 19200, 38400, 57600, 115200, 230400]

/-- What start_server did: printed a diagnostic and returned false, or
reached event_base_dispatch. -/
inductive StartResult where
  | fail (msg : String)
  | dispatch
  deriving Repr, DecidableEq

/-- start_server's validation and setup sequence, in source order:
device key (string), baudrate key (integer), open/fcntl/tcgetattr on
the device, the baud-rate switch, tcsetattr, the socket key (string),
the listener bind.  Each failure prints the given diagnostic and makes
start_server return false. -/
def start_server (config : UclConfig) (env : StartEnv) : StartResult :=
  match ucl_find config "device" with
  | none => StartResult.fail "ERROR: Missing 'device' in configuration file!"
  | some v =>
    match v with
    | UclValue.str _ =>
      match ucl_find config "baudrate" with
      | none => StartResult.fail "ERROR: Missing 'baudrate' in configuration file!"
      | some bv =>
        match bv with
        | UclValue.int baudrate =>
          if ¬ env.openOk then
            StartResult.fail "ERROR: Failed to open the serial device!"
          else if ¬ env.fcntlOk then
            StartResult.fail "ERROR: Failed to setup the serial device!"
          else if ¬ env.tcgetOk then
            StartResult.fail "ERROR: Failed to configure the serial device!"
          else if baudrate ∉ validBaudrates then
            StartResult.fail "ERROR: Invalid baudrate specified!"
          else if ¬ env.tcsetOk then
            StartResult.fail "ERROR: Failed to configure the serial device!"
          else
            match ucl_find config "socket" with
            | none => StartResult.fail "Missing 'socket' in configuration file!"
            | some sv =>
              match sv with
              | UclValue.str _ =>
                if ¬ env.listenerOk then
                  StartResult.fail "Could not create socket listener!"
                else StartResult.dispatch
              | _ => StartResult.fail "Socket path must be a string!"
        | _ => StartResult.fail "ERROR: Baudrate must be an integer!"
    | _ => StartResult.fail "ERROR: Device must be a string!"

/-- Whether the configuration file parsed. -/
inductive ParseResult where
  | parseError
  | parsed (root : RootConfig)
  deriving Repr, DecidableEq

/-- main's exit code: 1 when no -c argument was given, 2 when the
configuration fails to parse or (with -d) the "server" subtree is
missing; otherwise, with -d, start_server is called and its return
value is discarded, so ret_value stays 0. -/
def main (configGiven : Bool) (parse : ParseResult) (serverFlag : Bool)
    (env : StartEnv) : Int :=
  if ¬ configGiven then 1
  else
    match parse with
    | ParseResult.parseError => 2
    | ParseResult.parsed root =>
      if serverFlag then
        match root.server with
        | none => 2
        | some cfg =>
            let _ := start_server cfg env
            0
      else 0

/-- An all-successes reset environment. -/
def envOk : ResetEnv := ⟨true, true, true⟩

/-- A reset environment where reopening the device fails. -/
def envOpenFail : ResetEnv := ⟨false, true, true⟩

/-- An all-successes start_server environment. -/
def startEnvOk : StartEnv := ⟨true, true, true, true, true⟩

/-- A server configuration missing the required "device" key. -/
def cfgMissingDevice : UclConfig :=
  [("baudrate", UclValue.int 9600), ("socket", UclValue.str "/tmp/koruza.sock")]

/-- A broker state with connection 1 active, as right after a dispatch. -/
def sActive1 : ServerState := { initState with active := some 1, timerArmed := true }

/-- First slice of a device reply whose terminator is split in two. -/
def replySlice1 : List Char := ("#START\r\nok\r\n#ST").toList

/-- Second slice, carrying the rest of the split terminator. -/
def replySlice2 : List Char := ("OP\r\n").toList

/-- A broker state with connection 2 active, one command from
connection 3 queued, and the reset hook configured. -/
def sTimeoutEx : ServerState :=
  { initState with
    active := some 2
    timerArmed := true
    queue := [⟨3, ['B', '\n']⟩]
    hookConfigured := true }

/-- A broker state with connection 5 active and the serial port closed. -/
def sSerialClosed : ServerState :=
  { initState with active := some 5, serialOpen := false, timerArmed := true }

/-- A concrete interleaving of submissions from two connections. -/
def evsEx : List SchedEvent :=
  [SchedEvent.submit 0 (['A', ' ', '4', '\n']),
   SchedEvent.submit 1 (['B', ' ', '1', '\n']),
   SchedEvent.complete,
   SchedEvent.complete]

/-- server_serial_reset with fail_active = false never reaches the
final command_done call, so it agrees with the reset core. -/
lemma reset_noFail_eq_core (s : ServerState) (env : ResetEnv) :
    server_serial_reset s false env = server_serial_reset_core s false env := by
  unfold server_serial_reset
  cases hr : server_serial_reset_core s false env with
  | mk s1 ok => cases ok <;> simp

/-- Sending a command while the serial bufferevent is open arms the
timer and appends the command to the serial write trace. -/
lemma send_open (s : ServerState) (cmd : List Char) (env : ResetEnv)
    (h : s.serialOpen = true) :
    server_serial_send_command s cmd env
      = { s with timerArmed := true, writesSerial := s.writesSerial ++ [cmd] } := by
  unfold server_serial_send_command server_serial_start_response_timer
  simp [h]

/-- Behavior of the reset core on the fields the invariants track. -/
lemma reset_core_spec (s : ServerState) (fa : Bool) (env : ResetEnv) :
    (server_serial_reset_core s fa env).1.active = s.active ∧
    (server_serial_reset_core s fa env).1.queue = s.queue ∧
    ((server_serial_reset_core s fa env).2 = true →
      (server_serial_reset_core s fa env).1.timerArmed = s.timerArmed ∧
      (server_serial_reset_core s fa env).1.serialOpen = true) ∧
    ((server_serial_reset_core s fa env).2 = false →
      (server_serial_reset_core s fa env).1.timerArmed = true ∧
      (server_serial_reset_core s fa env).1.serialOpen = false) := by
  unfold server_serial_reset_core server_serial_start_response_timer
  cases hact : s.active <;> by_cases hk : s.hookConfigured <;> by_cases hfa : fa = true <;>
    by_cases h1 : env.openOk = true <;> by_cases h2 : env.fcntlOk = true <;>
    by_cases h3 : env.tcsetOk = true <;>
    simp [hact, hk, hfa, h1, h2, h3]

/-- server_serial_send_command always leaves the response timer armed
and the active slot untouched. -/
lemma send_timer_active (s : ServerState) (cmd : List Char) (env : ResetEnv) :
    (server_serial_send_command s cmd env).timerArmed = true ∧
    (server_serial_send_command s cmd env).active = s.active := by
  unfold server_serial_send_command server_serial_reset_core
    server_serial_start_response_timer
  cases hact : s.active <;> cases ho : s.serialOpen <;> cases hk : s.hookConfigured <;>
    cases h1 : env.openOk <;> cases h2 : env.fcntlOk <;> cases h3 : env.tcsetOk <;>
    simp [hact, ho, hk, h1, h2, h3]

/-- The dispatch inside command_done makes the dequeued connection
active, so the timer/active equivalence holds after any send whose
caller has set an active connection. -/
lemma send_timerInv_some (s : ServerState) (cmd : List Char) (env : ResetEnv)
    (x : Nat) (h : s.active = some x) :
    timerInv (server_serial_send_command s cmd env) := by
  have h2 := send_timer_active s cmd env
  unfold timerInv
  rw [h2.1, h2.2, h]
  simp

/-- command_done on an empty queue clears the slot and the timer. -/
lemma done_queue_nil (s : ServerState) (env : ResetEnv) (h : s.queue = []) :
    server_serial_command_done s env
      = { s with response := [], timerArmed := false, active := none } := by
  unfold server_serial_command_done
  simp only [h]

/-- command_done on a non-empty queue dispatches the head: with the
serial port open the head's connection becomes active, the timer is
re-armed and the head's command is written to the device. -/
lemma done_queue_cons (s : ServerState) (env : ResetEnv) (q : QueuedCmd)
    (rest : List QueuedCmd) (h : s.queue = q :: rest) (ho : s.serialOpen = true) :
    server_serial_command_done s env
      = { s with response := [], timerArmed := true, active := some q.conn,
                 queue := rest, writesSerial := s.writesSerial ++ [q.cmd] } := by
  unfold server_serial_command_done
  simp only [h]
  rw [send_open _ _ _ (by exact ho)]

/-- command_done always restores the timer/active equivalence. -/
lemma done_timerInv (s : ServerState) (env : ResetEnv) :
    timerInv (server_serial_command_done s env) := by
  cases hq : s.queue with
  | nil => rw [done_queue_nil s env hq]; simp [timerInv]
  | cons q rest =>
      unfold server_serial_command_done
      simp only [hq]
      exact send_timerInv_some _ q.cmd env q.conn rfl

/-- With the serial port open, command_done writes nothing to any
client connection. -/
lemma done_writesConn (s : ServerState) (env : ResetEnv) (ho : s.serialOpen = true) :
    (server_serial_command_done s env).writesConn = s.writesConn := by
  cases hq : s.queue with
  | nil => rw [done_queue_nil s env hq]
  | cons q rest => rw [done_queue_cons s env q rest hq ho]

/-- With the serial port open, command_done leaves the connection write
trace, port state and hook counter unchanged and clears the response. -/
lemma done_open_fields (s : ServerState) (env : ResetEnv) (ho : s.serialOpen = true) :
    (server_serial_command_done s env).writesConn = s.writesConn ∧
    (server_serial_command_done s env).serialOpen = true ∧
    (server_serial_command_done s env).hookRuns = s.hookRuns ∧
    (server_serial_command_done s env).response = [] := by
  cases hq : s.queue with
  | nil => rw [done_queue_nil s env hq]; exact ⟨rfl, ho, rfl, rfl⟩
  | cons q rest => rw [done_queue_cons s env q rest hq ho]; exact ⟨rfl, ho, rfl, rfl⟩

/-- A submission with a successful allocation preserves the
timer/active equivalence. -/
lemma submit_timerInv (s : ServerState) (c : Nat) (cmd : List Char) (env : ResetEnv)
    (hinv : timerInv s) : timerInv (server_send_command s c cmd true env).1 := by
  unfold server_send_command
  cases hact : s.active with
  | some a =>
      have h2 : s.timerArmed = true := by
        unfold timerInv at hinv; rw [hact] at hinv; simpa using hinv
      simp [timerInv, h2]
  | none => exact send_timerInv_some _ cmd env c rfl

/-- A reset performed while a command is active preserves the
timer/active equivalence. -/
lemma reset_timerInv (s : ServerState) (fa : Bool) (env : ResetEnv)
    (hinv : timerInv s) (hsome : s.active.isSome = true) :
    timerInv (server_serial_reset s fa env).1 := by
  have htimer : s.timerArmed = true := hinv.mpr hsome
  unfold server_serial_reset server_serial_reset_core server_serial_start_response_timer
  cases hact : s.active with
  | none => rw [hact] at hsome; simp at hsome
  | some a =>
      cases hfa : fa <;> cases h1 : env.openOk <;> cases h2 : env.fcntlOk <;>
        cases h3 : env.tcsetOk <;> cases hk : s.hookConfigured <;>
        first
          | exact done_timerInv _ env
          | simp [timerInv, htimer, hact, hk]

/-- A serial read that does not complete the command keeps the active
connection and has appended the read bytes to the response buffer. -/
lemma read_not_completed (s : ServerState) (c : Nat) (data : List Char) (env : ResetEnv)
    (hact : s.active = some c)
    (hnc : (server_serial_read_cb s data env).completed = false) :
    (server_serial_read_cb s data env).state.active = some c ∧
    (server_serial_read_cb s data env).state.response = s.response ++ data := by
  unfold server_serial_read_cb at hnc ⊢
  rw [hact] at hnc ⊢
  by_cases hd : data = []
  · subst hd
    by_cases h9 : s.response.length < 9
    · simp [h9, hact]
    · by_cases ht : lastN 9 s.response = stopSeq
      · exfalso; simp [h9, ht] at hnc
      · simp [h9, ht, hact]
  · by_cases h9 : s.response.length + data.length < 9
    · simp [hd, List.length_append, h9, hact]
    · by_cases ht : lastN 9 (s.response ++ data) = stopSeq
      · exfalso; simp [hd, List.length_append, h9, ht] at hnc
      · simp [hd, List.length_append, h9, ht, hact]

/-- End-of-message detection works on the accumulated response buffer:
whenever at least nine bytes have accumulated, completion is detected
exactly when the buffer tail equals the sentinel. -/
lemma stop_tail_iff (s : ServerState) (c : Nat) (data : List Char) (env : ResetEnv)
    (hact : s.active = some c) (hlen : 9 ≤ s.response.length + data.length) :
    ((server_serial_read_cb s data env).completed = true ↔
      lastN 9 (s.response ++ data) = stopSeq) := by
  unfold server_serial_read_cb
  rw [hact]
  by_cases hd : data = []
  · subst hd
    have h9 : ¬ (s.response.length < 9) := by simp at hlen; omega
    by_cases ht : lastN 9 s.response = stopSeq <;> simp [h9, ht]
  · have h9 : ¬ (s.response.length + data.length < 9) := by omega
    by_cases ht : lastN 9 (s.response ++ data) = stopSeq <;>
      simp [hd, List.length_append, h9, ht]

/-- The reset core with fail_active and a fully successful reopen:
error envelope to the active connection, hook run, port reopened. -/
lemma reset_core_ok (s : ServerState) (c : Nat) (env : ResetEnv)
    (hact : s.active = some c) (h1 : env.openOk = true) (h2 : env.fcntlOk = true)
    (h3 : env.tcsetOk = true) :
    server_serial_reset_core s true env =
      ({ s with writesConn := s.writesConn ++ [(c, errorEnvelope)],
                serialOpen := true,
                hookRuns := if s.hookConfigured then s.hookRuns + 1 else s.hookRuns },
       true) := by
  unfold server_serial_reset_core server_serial_start_response_timer
  rw [hact]
  by_cases hk : s.hookConfigured = true <;> simp [hk, h1, h2, h3]

/-- Dispatch with the serial port gone and a failing reopen: the timer
is armed, the error envelope goes to the active connection, and the
port stays closed. -/
lemma send_closed_fail (s : ServerState) (c : Nat) (cmd : List Char) (env : ResetEnv)
    (hact : s.active = some c) (ho : s.serialOpen = false) (h1 : env.openOk = false) :
    server_serial_send_command s cmd env =
      { s with timerArmed := true, serialOpen := false,
               hookRuns := if s.hookConfigured then s.hookRuns + 1 else s.hookRuns,
               writesConn := s.writesConn ++ [(c, errorEnvelope)] } := by
  unfold server_serial_send_command server_serial_reset_core
    server_serial_start_response_timer
  by_cases hk : s.hookConfigured = true <;> simp [hact, ho, h1, hk]

/-- Invariant of scheduler traces: the serial port stays open, an empty
active slot implies an empty queue, and the serial write trace followed
by the still-queued commands is the submission-order concatenation. -/
lemma runSched_fifo (env : ResetEnv) (evs : List SchedEvent) :
    ∀ s : ServerState, s.serialOpen = true → (s.active = none → s.queue = []) →
      (runSched env s evs).serialOpen = true ∧
      ((runSched env s evs).active = none → (runSched env s evs).queue = []) ∧
      (runSched env s evs).writesSerial ++ queueCmds (runSched env s evs)
        = s.writesSerial ++ queueCmds s ++ submittedCmds evs := by
  induction evs with
  | nil =>
      intro s h1 h2
      refine ⟨h1, h2, ?_⟩
      simp [runSched, submittedCmds]
  | cons ev evs ih =>
      intro s h1 h2
      cases ev with
      | submit c cmd =>
          cases hact : s.active with
          | some a =>
              have hstep : (server_send_command s c cmd true env).1
                  = { s with queue := s.queue ++ [⟨c, cmd⟩] } := by
                unfold server_send_command
                rw [hact]
                simp
              simp only [runSched]
              rw [hstep]
              have h3 := ih { s with queue := s.queue ++ [⟨c, cmd⟩] } h1 (by simp [hact])
              refine ⟨h3.1, h3.2.1, ?_⟩
              rw [h3.2.2]
              simp [queueCmds, submittedCmds, List.map_append, List.append_assoc]
          | none =>
              have hq0 : s.queue = [] := h2 hact
              have hstep : (server_send_command s c cmd true env).1
                  = { s with active := some c, timerArmed := true,
                             writesSerial := s.writesSerial ++ [cmd] } := by
                unfold server_send_command server_serial_send_command
                  server_serial_start_response_timer
                rw [hact]
                simp [h1]
              simp only [runSched]
              rw [hstep]
              have h3 := ih { s with active := some c, timerArmed := true,
                                     writesSerial := s.writesSerial ++ [cmd] }
                h1 (by simp)
              refine ⟨h3.1, h3.2.1, ?_⟩
              rw [h3.2.2]
              simp [queueCmds, submittedCmds, hq0, List.append_assoc]
      | complete =>
          cases hq : s.queue with
          | nil =>
              simp only [runSched]
              rw [done_queue_nil s env hq]
              have h3 := ih { s with response := [], timerArmed := false, active := none }
                h1 (by intro _; exact hq)
              refine ⟨h3.1, h3.2.1, ?_⟩
              rw [h3.2.2]
              simp [queueCmds, submittedCmds, hq]
          | cons q rest =>
              simp only [runSched]
              rw [done_queue_cons s env q rest hq h1]
              have h3 := ih { s with response := [], timerArmed := true,
                                     active := some q.conn, queue := rest,
                                     writesSerial := s.writesSerial ++ [q.cmd] }
                h1 (by simp)
              refine ⟨h3.1, h3.2.1, ?_⟩
              rw [h3.2.2]
              simp [queueCmds, submittedCmds, hq, List.append_assoc]

/-- C1: for every interleaving of successful submissions from any
number of connections with completions, the commands written to the
serial port followed by the still-pending queue equal the
submission-order concatenation; once the queue has drained, the serial
write trace is exactly the submission order. -/
theorem fifo_dispatch_order (env : ResetEnv) (evs : List SchedEvent) :
    (runSched env initState evs).writesSerial ++ queueCmds (runSched env initState evs)
      = submittedCmds evs ∧
    ((runSched env initState evs).queue = [] →
      (runSched env initState evs).writesSerial = submittedCmds evs) := by
  have h := runSched_fifo env evs initState rfl (fun _ => rfl)
  have hmain : (runSched env initState evs).writesSerial
      ++ queueCmds (runSched env initState evs) = submittedCmds evs := by
    simpa [initState, queueCmds] using h.2.2
  exact ⟨hmain, fun hq => by simpa [queueCmds, hq] using hmain⟩

/-- Witness for fifo_dispatch_order at a concrete interleaving of two
connections. -/
theorem fifo_dispatch_order_witness :
    (runSched envOk initState evsEx).queue = [] ∧
    (runSched envOk initState evsEx).writesSerial = submittedCmds evsEx :=
  ⟨by decide, (fifo_dispatch_order envOk evsEx).2 (by decide)⟩

/-- C2 (counterexample): dispatching a command from connection 0 and
then closing that connection reaches a broker state whose active slot
is empty while the response-timeout timer is still armed, so connection
close does not preserve the claimed equivalence. -/
theorem timer_iff_active_counterexample :
    (connection_context_free
        (server_send_command initState 0 ['P', '\n'] true envOk).1 0).active = none ∧
    (connection_context_free
        (server_send_command initState 0 ['P', '\n'] true envOk).1 0).timerArmed = true ∧
    ¬ timerInv (connection_context_free
        (server_send_command initState 0 ['P', '\n'] true envOk).1 0) := by
  decide

/-- C2 (amended): the armed-iff-occupied equivalence is preserved by
command submission and dispatch, by completion, and by reset performed
while a command is active; but closing the active connection (as
connection_context_free does, also on the allocation-failure path of
submit) vacates the slot while leaving the timer armed, breaking the
equivalence. -/
theorem timer_iff_active_amended :
    (∀ s c cmd env, timerInv s → timerInv (server_send_command s c cmd true env).1) ∧
    (∀ s env, timerInv (server_serial_command_done s env)) ∧
    (∀ s fa env, timerInv s → s.active.isSome = true →
      timerInv (server_serial_reset s fa env).1) ∧
    (∀ s c, s.active = some c → s.timerArmed = true →
      (connection_context_free s c).active = none ∧
      (connection_context_free s c).timerArmed = true) := by
  refine ⟨submit_timerInv, done_timerInv, reset_timerInv, ?_⟩
  intro s c hact htimer
  simp [connection_context_free, hact, htimer]

/-- Witness for timer_iff_active_amended on a concrete active state. -/
theorem timer_iff_active_amended_witness :
    timerInv sActive1 ∧
    timerInv (server_serial_reset sActive1 true envOk).1 ∧
    (connection_context_free sActive1 1).active = none ∧
    (connection_context_free sActive1 1).timerArmed = true :=
  ⟨by decide,
   timer_iff_active_amended.2.2.1 sActive1 true envOk (by decide) (by decide),
   (timer_iff_active_amended.2.2.2 sActive1 1 rfl rfl).1,
   (timer_iff_active_amended.2.2.2 sActive1 1 rfl rfl).2⟩

/-- C3 (counterexample): a 63-byte command followed by a newline (64
bytes in total) is not accepted: the read callback reaches cmd_length
= 64 and closes the connection as a protocol error. -/
theorem command_length_counterexample :
    (server_connection_read_cb [] (List.replicate 63 'a' ++ ['\n'])).1
      = ReadOutcome.closed := by
  decide

/-- C3 (amended): a command of at most 62 bytes followed by a newline
(at most 63 bytes in total) is accepted and submitted, while any
accumulation reaching 64 bytes — whether or not the 64th byte is the
newline — closes the connection as a protocol error. -/
theorem command_length_amended :
    (∀ input : List Char, input ≠ [] → input.length ≤ 63 →
      input.getLast? = some '\n' →
      (server_connection_read_cb [] input).1 = ReadOutcome.submitted input) ∧
    (∀ input : List Char, 64 ≤ input.length →
      (server_connection_read_cb [] input).1 = ReadOutcome.closed) := by
  constructor
  · intro input hne hlen hlast
    have h0 : 0 < input.length := List.length_pos.mpr hne
    simp only [server_connection_read_cb, List.length_nil, Nat.sub_zero, List.nil_append]
    rw [Nat.min_eq_left (by omega)]
    rw [if_neg (by omega)]
    rw [List.take_length]
    rw [if_neg (by omega), if_pos hlast]
  · intro input hlen
    simp only [server_connection_read_cb, List.length_nil, Nat.sub_zero, List.nil_append]
    rw [Nat.min_eq_right hlen]
    rw [if_neg (by omega)]
    rw [if_pos (by simp [List.length_take]; omega)]

/-- Witness for command_length_amended: a 62-byte command plus newline
is submitted whole. -/
theorem command_length_amended_witness :
    ((List.replicate 62 'b' ++ ['\n'] : List Char) ≠ []) ∧
    (List.replicate 62 'b' ++ ['\n'] : List Char).length ≤ 63 ∧
    (List.replicate 62 'b' ++ ['\n'] : List Char).getLast? = some '\n' ∧
    (server_connection_read_cb [] (List.replicate 62 'b' ++ ['\n'])).1
      = ReadOutcome.submitted (List.replicate 62 'b' ++ ['\n']) :=
  ⟨by decide, by decide, by decide,
   command_length_amended.1 (List.replicate 62 'b' ++ ['\n'])
     (by decide) (by decide) (by decide)⟩

/-- C4: while a command is active and at least nine bytes have
accumulated (so the comparison is in bounds), the framer declares the
reply complete exactly when the tail of the accumulated response equals
the nine-byte sentinel; because the check runs over the accumulated
buffer, a terminator split across two reactor reads is still detected
at the second read. -/
theorem stop_detection_accumulated :
    (∀ s c data env, s.active = some c → 9 ≤ s.response.length + data.length →
      ((server_serial_read_cb s data env).completed = true ↔
        lastN 9 (s.response ++ data) = stopSeq)) ∧
    (∀ s c d1 d2 env, s.active = some c →
      (server_serial_read_cb s d1 env).completed = false →
      9 ≤ s.response.length + d1.length + d2.length →
      ((server_serial_read_cb (server_serial_read_cb s d1 env).state d2 env).completed
          = true ↔
        lastN 9 (s.response ++ d1 ++ d2) = stopSeq)) := by
  constructor
  · exact stop_tail_iff
  · intro s c d1 d2 env hact hnc hlen
    obtain ⟨ha2, hr2⟩ := read_not_completed s c d1 env hact hnc
    have hiff := stop_tail_iff _ c d2 env ha2
      (by rw [hr2]; simp [List.length_append]; omega)
    rw [hr2] at hiff
    exact hiff

/-- Witness for stop_detection_accumulated: the terminator split as
"...#ST" / "OP\r\n" across two reads is detected at the second read. -/
theorem stop_detection_accumulated_witness :
    sActive1.active = some 1 ∧
    (server_serial_read_cb sActive1 replySlice1 envOk).completed = false ∧
    ((server_serial_read_cb (server_serial_read_cb sActive1 replySlice1 envOk).state
        replySlice2 envOk).completed = true ↔
      lastN 9 (sActive1.response ++ replySlice1 ++ replySlice2) = stopSeq) :=
  ⟨rfl, by decide,
   stop_detection_accumulated.2 sActive1 1 replySlice1 replySlice2 envOk rfl
     (by decide) (by decide)⟩

/-- C5: the end-of-message comparison runs without first checking that
at least nine bytes have accumulated: in any read burst where the bytes
accumulated since the last completion total between 1 and 8, the
comparison starts before the response buffer, violating the
rsp_length >= 9 guard of the embedded detector. -/
theorem stop_check_underflow :
    ∀ s c data env, s.active = some c → s.response.length + data.length ≤ 8 →
      1 ≤ data.length →
      (server_serial_read_cb s data env).underflow = true := by
  intro s c data env hact hlen hpos
  have hne : data ≠ [] := by intro h; subst h; simp at hpos
  unfold server_serial_read_cb
  rw [hact]
  simp only [if_neg hne]
  rw [if_pos]
  simp [List.length_append]
  omega

/-- Witness for stop_check_underflow: a two-byte reply fragment arriving
on a fresh response buffer drives the comparison out of bounds. -/
theorem stop_check_underflow_witness :
    sActive1.active = some 1 ∧
    sActive1.response.length + (['o', 'k'] : List Char).length ≤ 8 ∧
    (server_serial_read_cb sActive1 ['o', 'k'] envOk).underflow = true :=
  ⟨rfl, by decide,
   stop_check_underflow sActive1 1 ['o', 'k'] envOk rfl (by decide) (by decide)⟩

/-- C6: when the one-second response timeout fires with a command
active and the reopen succeeds, the broker writes exactly the 15-byte
error envelope to the active connection, closes and reopens the serial
port (running the configured reset hook), clears the response
accumulator, and invokes completion, dispatching the head of the queue
if one is pending. -/
theorem timeout_error_and_redispatch :
    ∀ s c env, s.active = some c →
      env.openOk = true → env.fcntlOk = true → env.tcsetOk = true →
      errorEnvelope.length = 15 ∧
      (server_serial_read_response_timeout_cb s env).writesConn
        = s.writesConn ++ [(c, errorEnvelope)] ∧
      (server_serial_read_response_timeout_cb s env).serialOpen = true ∧
      (s.hookConfigured = true →
        (server_serial_read_response_timeout_cb s env).hookRuns = s.hookRuns + 1) ∧
      (server_serial_read_response_timeout_cb s env).response = [] ∧
      (∀ q rest, s.queue = q :: rest →
        (server_serial_read_response_timeout_cb s env).active = some q.conn ∧
        (server_serial_read_response_timeout_cb s env).queue = rest ∧
        (server_serial_read_response_timeout_cb s env).writesSerial
          = s.writesSerial ++ [q.cmd] ∧
        (server_serial_read_response_timeout_cb s env).timerArmed = true) ∧
      (s.queue = [] →
        (server_serial_read_response_timeout_cb s env).active = none ∧
        (server_serial_read_response_timeout_cb s env).timerArmed = false) := by
  intro s c env hact h1 h2 h3
  have hcore := reset_core_ok s c env hact h1 h2 h3
  have hstep : server_serial_read_response_timeout_cb s env
      = server_serial_command_done
          { s with writesConn := s.writesConn ++ [(c, errorEnvelope)],
                   serialOpen := true,
                   hookRuns := if s.hookConfigured then s.hookRuns + 1 else s.hookRuns }
          env := by
    unfold server_serial_read_response_timeout_cb
    simp [server_serial_reset, hcore]
  rw [hstep]
  have hofs := done_open_fields
    { s with writesConn := s.writesConn ++ [(c, errorEnvelope)],
             serialOpen := true,
             hookRuns := if s.hookConfigured then s.hookRuns + 1 else s.hookRuns }
    env rfl
  refine ⟨by decide, hofs.1, hofs.2.1, ?_, hofs.2.2.2, ?_, ?_⟩
  · intro hk
    rw [hofs.2.2.1]
    simp [hk]
  · intro q rest hq
    rw [done_queue_cons
      { s with writesConn := s.writesConn ++ [(c, errorEnvelope)],
               serialOpen := true,
               hookRuns := if s.hookConfigured then s.hookRuns + 1 else s.hookRuns }
      env q rest hq rfl]
    exact ⟨rfl, rfl, rfl, rfl⟩
  · intro hq
    rw [done_queue_nil
      { s with writesConn := s.writesConn ++ [(c, errorEnvelope)],
               serialOpen := true,
               hookRuns := if s.hookConfigured then s.hookRuns + 1 else s.hookRuns }
      env hq]
    exact ⟨rfl, rfl⟩

/-- Witness for timeout_error_and_redispatch on a concrete state with a
queued command and a configured hook. -/
theorem timeout_error_and_redispatch_witness :
    sTimeoutEx.active = some 2 ∧
    (server_serial_read_response_timeout_cb sTimeoutEx envOk).writesConn
      = sTimeoutEx.writesConn ++ [(2, errorEnvelope)] ∧
    (server_serial_read_response_timeout_cb sTimeoutEx envOk).hookRuns
      = sTimeoutEx.hookRuns + 1 ∧
    (server_serial_read_response_timeout_cb sTimeoutEx envOk).active = some 3 :=
  ⟨rfl,
   (timeout_error_and_redispatch sTimeoutEx 2 envOk rfl rfl rfl rfl).2.1,
   (timeout_error_and_redispatch sTimeoutEx 2 envOk rfl rfl rfl rfl).2.2.2.1 rfl,
   ((timeout_error_and_redispatch sTimeoutEx 2 envOk rfl rfl rfl rfl).2.2.2.2.2.1
      ⟨3, ['B', '\n']⟩ [] rfl).1⟩

/-- C7: closing a connection frees its bufferevent and clears the
active slot exactly when that connection occupied it; the pending
queue (including entries of the closed connection), the timer, the
port, the response buffer, the traces and the hook counter are all
unchanged. -/
theorem connection_close_frame (s : ServerState) (c : Nat) :
    (connection_context_free s c).queue = s.queue ∧
    (connection_context_free s c).timerArmed = s.timerArmed ∧
    (connection_context_free s c).serialOpen = s.serialOpen ∧
    (connection_context_free s c).response = s.response ∧
    (connection_context_free s c).writesSerial = s.writesSerial ∧
    (connection_context_free s c).writesConn = s.writesConn ∧
    (connection_context_free s c).hookRuns = s.hookRuns ∧
    (connection_context_free s c).closedConns = c :: s.closedConns ∧
    (connection_context_free s c).active
      = (if s.active = some c then none else s.active) := by
  unfold connection_context_free
  by_cases h : s.active = some c <;> simp [h]

/-- C8 (counterexample): when the submitting connection is itself the
active one, an allocation failure during submit clears the active slot
through the connection close, so the active slot is not left unchanged
as the claim states. -/
theorem submit_alloc_fail_counterexample :
    ((server_send_command initState 0 ['A', '\n'] true envOk).1.active = some 0) ∧
    ((server_send_command
        (server_send_command initState 0 ['A', '\n'] true envOk).1
        0 ['B', '\n'] false envOk).1.active = none) := by
  decide

/-- C8 (amended): if allocating the pending record fails while a
command is active, submit closes the submitting connection and returns
failure; the queue, its entries and both write traces are unchanged,
and the active slot is unchanged unless the submitter itself occupies
it, in which case the close clears it.  In every other case submit
returns success. -/
theorem submit_alloc_fail_amended :
    (∀ s c cmd env, s.active.isSome = true →
      (server_send_command s c cmd false env).2 = false ∧
      (server_send_command s c cmd false env).1.queue = s.queue ∧
      (server_send_command s c cmd false env).1.writesSerial = s.writesSerial ∧
      (server_send_command s c cmd false env).1.writesConn = s.writesConn ∧
      (server_send_command s c cmd false env).1.closedConns = c :: s.closedConns ∧
      (server_send_command s c cmd false env).1.active
        = (if s.active = some c then none else s.active)) ∧
    (∀ s c cmd env ok, ok = true ∨ s.active = none →
      (server_send_command s c cmd ok env).2 = true) := by
  constructor
  · intro s c cmd env hsome
    obtain ⟨a, hact⟩ := Option.isSome_iff_exists.mp hsome
    unfold server_send_command
    rw [hact]
    by_cases hcc : s.active = some c
    · rw [hact] at hcc
      injection hcc with hca
      subst hca
      simp [connection_context_free, hact]
    · simp only [connection_context_free]
      rw [if_neg hcc]
      simp [hact, hcc]
      exact fun h => hcc (by rw [hact, h])
  · intro s c cmd env ok hok
    unfold server_send_command
    cases hact : s.active with
    | none => rfl
    | some a =>
        cases hok with
        | inl h => subst h; simp
        | inr h => rw [hact] at h; cases h

/-- Witness for submit_alloc_fail_amended on a state whose active
connection is also the submitter. -/
theorem submit_alloc_fail_amended_witness :
    sActive1.active.isSome = true ∧
    (server_send_command sActive1 1 ['X', '\n'] false envOk).2 = false ∧
    (server_send_command sActive1 1 ['X', '\n'] false envOk).1.queue = sActive1.queue ∧
    (server_send_command sActive1 1 ['X', '\n'] false envOk).1.active
      = (if sActive1.active = some 1 then none else sActive1.active) :=
  ⟨by decide,
   (submit_alloc_fail_amended.1 sActive1 1 ['X', '\n'] envOk (by decide)).1,
   (submit_alloc_fail_amended.1 sActive1 1 ['X', '\n'] envOk (by decide)).2.1,
   (submit_alloc_fail_amended.1 sActive1 1 ['X', '\n'] envOk (by decide)).2.2.2.2.2⟩

/-- C9: if dispatch finds the serial port closed and the reopen fails,
the error envelope is written to the active connection but completion
is not invoked — the slot stays occupied and the timer armed — so a
later timeout sends the same connection a second error envelope for
the same submitted command. -/
theorem failed_reset_double_error :
    ∀ s c cmd env1 env2, s.active = some c → s.serialOpen = false →
      env1.openOk = false →
      env2.openOk = true → env2.fcntlOk = true → env2.tcsetOk = true →
      (server_serial_send_command s cmd env1).active = some c ∧
      (server_serial_send_command s cmd env1).timerArmed = true ∧
      (server_serial_send_command s cmd env1).serialOpen = false ∧
      (server_serial_send_command s cmd env1).writesSerial = s.writesSerial ∧
      (server_serial_send_command s cmd env1).writesConn
        = s.writesConn ++ [(c, errorEnvelope)] ∧
      (server_serial_read_response_timeout_cb
          (server_serial_send_command s cmd env1) env2).writesConn
        = s.writesConn ++ [(c, errorEnvelope), (c, errorEnvelope)] := by
  intro s c cmd env1 env2 hact ho h1 h21 h22 h23
  rw [send_closed_fail s c cmd env1 hact ho h1]
  refine ⟨hact, rfl, rfl, rfl, rfl, ?_⟩
  have hcore := reset_core_ok
    { s with timerArmed := true, serialOpen := false,
             hookRuns := if s.hookConfigured then s.hookRuns + 1 else s.hookRuns,
             writesConn := s.writesConn ++ [(c, errorEnvelope)] }
    c env2 hact h21 h22 h23
  unfold server_serial_read_response_timeout_cb
  simp only [server_serial_reset]
  rw [hcore]
  simp only [if_true]
  rw [done_writesConn _ env2 rfl]
  simp

/-- Witness for failed_reset_double_error on a concrete closed-port
state for connection 5. -/
theorem failed_reset_double_error_witness :
    sSerialClosed.active = some 5 ∧
    sSerialClosed.serialOpen = false ∧
    (server_serial_send_command sSerialClosed ['X', '\n'] envOpenFail).writesConn
      = sSerialClosed.writesConn ++ [(5, errorEnvelope)] ∧
    (server_serial_read_response_timeout_cb
        (server_serial_send_command sSerialClosed ['X', '\n'] envOpenFail) envOk).writesConn
      = sSerialClosed.writesConn ++ [(5, errorEnvelope), (5, errorEnvelope)] :=
  ⟨rfl, rfl,
   (failed_reset_double_error sSerialClosed 5 ['X', '\n'] envOpenFail envOk
      rfl rfl rfl rfl rfl rfl).2.2.2.2.1,
   (failed_reset_double_error sSerialClosed 5 ['X', '\n'] envOpenFail envOk
      rfl rfl rfl rfl rfl rfl).2.2.2.2.2⟩

/-- C10 (bug exhibit): a server configuration missing the required
"device" key makes start_server print the diagnostic and return false,
but main discards start_server's return value, so the process exit
code is 0 rather than the documented 2. -/
theorem config_error_exit_code :
    start_server cfgMissingDevice startEnvOk
      = StartResult.fail "ERROR: Missing 'device' in configuration file!" ∧
    main true (ParseResult.parsed ⟨some cfgMissingDevice⟩) true startEnvOk = 0 ∧
    main true (ParseResult.parsed ⟨some cfgMissingDevice⟩) true startEnvOk ≠ 2 := by
  decide

end Koruza
